import Mathlib

/-!
Verification development for the hackersera-ai-sdk Go client library.

This file shallowly embeds the parts of `client.go` / `types.go` that the
specification's claims are about: the streaming chat-completion engine
(`ChatCompletionStream`), the error classifier (`parseError`), the header
composer (`setHeaders`), client construction (`NewClient`, `WithHTTPClient`)
and the per-method request builders.

Modelling conventions:
- External library behaviour (Go's `encoding/json`) is abstracted as parse
  oracles (`um : String → Option ChatStreamChunk` for `json.Unmarshal` into a
  stream chunk, `pe : String → Option ErrorResponse` for the error envelope).
- The streaming goroutine is modelled as a function producing the ordered
  trace of its observable events (HTTP exchange, line reads, channel sends,
  channel closes, the cancellation race at each send).  `bufio.Scanner` is
  modelled by the list of lines it yields plus the final `scanner.Err()`
  value; fallible setup steps (`json.Marshal`, `http.NewRequestWithContext`,
  `Client.Do`) are modelled by optional error inputs.
- The nondeterministic `select` between `chunks <- chunk` and `<-ctx.Done()`
  is resolved by an oracle `cancelAt : Nat → Bool` giving, for the n-th send
  attempt, whether the cancellation case wins the race.
-/

namespace HackerseraSdk

/-- Token usage information (types.go `Usage`). -/
structure Usage where
  promptTokens : Int
  completionTokens : Int
  totalTokens : Int
deriving DecidableEq, Repr

/-- Incremental content of a streaming chunk (types.go `Delta`). -/
structure Delta where
  role : String
  content : String
deriving DecidableEq, Repr

/-- A single choice in a streaming chunk (types.go `ChunkChoice`). -/
structure ChunkChoice where
  index : Int
  delta : Delta
  finishReason : Option String
deriving DecidableEq, Repr

/-- A single SSE chunk during streaming (types.go `ChatStreamChunk`). -/
structure ChatStreamChunk where
  id : String
  object : String
  created : Int
  model : String
  choices : List ChunkChoice
  usage : Option Usage
deriving DecidableEq, Repr

/-- Error message and type (types.go `ErrorDetail`). -/
structure ErrorDetail where
  message : String
  type' : String
  param : Option String
  code : Option String
deriving DecidableEq, Repr

/-- The JSON error body from the API (types.go `ErrorResponse`). -/
structure ErrorResponse where
  error : ErrorDetail
deriving DecidableEq, Repr

/-- An error returned by the API (types.go `APIError`). -/
structure APIError where
  statusCode : Nat
  errorBody : ErrorResponse
deriving DecidableEq, Repr

/-- An error surfaced by the SDK: either a wrapped action error
(`fmt.Errorf("<action>: %w", err)`) or a typed `*APIError`. -/
inductive SdkError where
  | wrapped (action : String) (cause : String)
  | api (e : APIError)
deriving DecidableEq, Repr

/-- Model of Go's `http.Client` configuration: a transport/cookie-jar tag to
distinguish custom clients, and the timeout in nanoseconds.  `&http.Client{}`
is `{}` (all zero values; zero timeout means no timeout). -/
structure HTTPClient where
  transport : Option Nat := none
  jar : Option Nat := none
  timeout : Nat := 0
deriving DecidableEq, Repr

/-- One minute in nanoseconds (Go `time.Minute`). -/
def timeMinute : Nat := 60000000000

/-- The SDK client (client.go `Client`). -/
structure Client where
  baseURL : String
  apiKey : String
  httpClient : HTTPClient
deriving DecidableEq, Repr

/-- Go `strings.TrimRight(s, "/")`: remove all trailing slash characters. -/
def trimRightSlashes (s : String) : String :=
  String.mk ((s.data.reverse.dropWhile (fun c => c == '/')).reverse)

/-- Whether the first list is an initial segment of the second (character
model of Go's `strings.HasPrefix`; the marker `"data: "` is ASCII, so byte
and character comparison coincide). -/
def charsMatch : List Char → List Char → Bool
  | [], _ => true
  | _ :: _, [] => false
  | a :: as, b :: bs => a == b && charsMatch as bs

/-- Go `strings.HasPrefix(line, "data: ")`. -/
def dataMarked (line : String) : Bool :=
  charsMatch "data: ".data line.data

/-- Go `strings.TrimPrefix(line, "data: ")`: remove the six-character event
marker when present, otherwise return the line unchanged. -/
def trimDataMark (line : String) : String :=
  if dataMarked line then String.mk (line.data.drop 6) else line

/-- client.go `NewClient`: trims the trailing slashes of the base URL and
installs a default HTTP client with a 5-minute timeout. -/
def NewClient (baseURL apiKey : String) : Client :=
  { baseURL := trimRightSlashes baseURL
    apiKey := apiKey
    httpClient := { timeout := 5 * timeMinute } }

/-- client.go `WithHTTPClient`: replaces the client's `http.Client`. -/
def Client.WithHTTPClient (c : Client) (httpClient : HTTPClient) : Client :=
  { c with httpClient := httpClient }

/-- Header maps are modelled as association lists; `http.Header.Set` replaces
any existing value for the key. -/
def setHeader (hs : List (String × String)) (k v : String) :
    List (String × String) :=
  (k, v) :: hs.filter (fun p => !(p.1 == k))

/-- Look up a header value (`http.Header.Get`). -/
def getHeader (hs : List (String × String)) (k : String) : Option String :=
  (hs.find? (fun p => p.1 == k)).map (fun p => p.2)

/-- client.go `setHeaders`: Content-Type always; Authorization iff the API
key is non-empty. -/
def Client.setHeaders (c : Client) (hs : List (String × String)) :
    List (String × String) :=
  let hs := setHeader hs "Content-Type" "application/json"
  if c.apiKey ≠ "" then setHeader hs "Authorization" ("Bearer " ++ c.apiKey)
  else hs

/-- client.go `parseError`: reads the full body; if it unmarshals as an
`ErrorResponse` the parsed envelope is used verbatim, otherwise an envelope
with the raw body text and type `unknown_error` is synthesized.  `pe` is the
oracle for `json.Unmarshal` into `ErrorResponse`. -/
def parseError (pe : String → Option ErrorResponse) (statusCode : Nat)
    (body : String) : APIError :=
  match pe body with
  | none =>
      { statusCode := statusCode
        errorBody :=
          { error :=
              { message := body
                type' := "unknown_error"
                param := none
                code := none } } }
  | some errResp =>
      { statusCode := statusCode
        errorBody := errResp }

/-- An outbound HTTP request as built by the client methods. -/
structure HttpRequest where
  method : String
  url : String
  headers : List (String × String)
  body : String
deriving DecidableEq, Repr

/-- The header set used by every method that calls `setHeaders`. -/
def Client.stdHeaders (c : Client) : List (String × String) :=
  c.setHeaders []

/-- client.go `ChatCompletion` request construction (POST, `setHeaders`). -/
def Client.chatCompletionRequest (c : Client) (body : String) : HttpRequest :=
  { method := "POST", url := c.baseURL ++ "/v1/chat/completions"
    headers := c.stdHeaders, body := body }

/-- client.go `ListModels` request construction (GET, `setHeaders`). -/
def Client.listModelsRequest (c : Client) : HttpRequest :=
  { method := "GET", url := c.baseURL ++ "/v1/models"
    headers := c.stdHeaders, body := "" }

/-- client.go `GetModel` request construction (GET, `setHeaders`). -/
def Client.getModelRequest (c : Client) (modelID : String) : HttpRequest :=
  { method := "GET", url := c.baseURL ++ "/v1/models/" ++ modelID
    headers := c.stdHeaders, body := "" }

/-- client.go `CreateEmbedding` request construction (POST, `setHeaders`). -/
def Client.createEmbeddingRequest (c : Client) (body : String) : HttpRequest :=
  { method := "POST", url := c.baseURL ++ "/v1/embeddings"
    headers := c.stdHeaders, body := body }

/-- client.go `Health` request construction: note that `Health` builds its
request WITHOUT calling `setHeaders`. -/
def Client.healthRequest (c : Client) : HttpRequest :=
  { method := "GET", url := c.baseURL ++ "/health"
    headers := [], body := "" }

/-- client.go `Ready` request construction: like `Health`, it does not call
`setHeaders`. -/
def Client.readyRequest (c : Client) : HttpRequest :=
  { method := "GET", url := c.baseURL ++ "/ready"
    headers := [], body := "" }

/-- client.go `Search` request construction (POST, `setHeaders`). -/
def Client.searchRequest (c : Client) (body : String) : HttpRequest :=
  { method := "POST", url := c.baseURL ++ "/v1/search"
    headers := c.stdHeaders, body := body }

/-- client.go `GetUsage` request construction (GET, `setHeaders`). -/
def Client.getUsageRequest (c : Client) : HttpRequest :=
  { method := "GET", url := c.baseURL ++ "/v1/usage"
    headers := c.stdHeaders, body := "" }

/-- client.go `ChatCompletion` line 58: the non-streaming call performs its
exchange with the client's configured `httpClient`. -/
def Client.chatCompletionClientUsed (c : Client) : HTTPClient :=
  c.httpClient

/-! ### The streaming goroutine, as an event trace -/

/-- Observable events of the streaming goroutine, in order of occurrence. -/
inductive StreamEvent where
  /-- `streamClient.Do(httpReq)` is invoked with the given client config. -/
  | exchange (hc : HTTPClient)
  /-- `scanner.Scan()` yielded this line (`line := scanner.Text()`). -/
  | readLine (line : String)
  /-- A chunk was sent on the `chunks` channel. -/
  | sendChunk (c : ChatStreamChunk)
  /-- An error was sent on the `errs` channel. -/
  | sendErr (e : SdkError)
  /-- The `<-ctx.Done()` case of the select won the race. -/
  | cancelWins
  /-- `close(errs)` ran (deferred; runs before `close(chunks)`). -/
  | closeErrs
  /-- `close(chunks)` ran (deferred, registered first so it runs last). -/
  | closeChunks
deriving DecidableEq, Repr

/-- The scanner loop of `ChatCompletionStream` (client.go lines 119-151),
from the first `scanner.Scan()` to the goroutine's deferred closes.
`um` is the `json.Unmarshal` oracle for `ChatStreamChunk`, `cancelAt n`
resolves the select race at the n-th send attempt, `readErr` is the value of
`scanner.Err()` once the scanner is exhausted, and `n` counts the send
attempts made so far. -/
def streamLoop (um : String → Option ChatStreamChunk) (cancelAt : Nat → Bool)
    (readErr : Option String) : List String → Nat → List StreamEvent
  | [], _ =>
      (match readErr with
       | some e => [.sendErr (.wrapped "read stream" e)]
       | none => []) ++ [.closeErrs, .closeChunks]
  | line :: rest, n =>
      if line = "" then
        .readLine line :: streamLoop um cancelAt readErr rest n
      else if !(dataMarked line) then
        .readLine line :: streamLoop um cancelAt readErr rest n
      else
        let data := trimDataMark line
        if data = "[DONE]" then
          [.readLine line, .closeErrs, .closeChunks]
        else
          match um data with
          | none => .readLine line :: streamLoop um cancelAt readErr rest n
          | some chunk =>
              if cancelAt n then
                [.readLine line, .cancelWins, .closeErrs, .closeChunks]
              else
                .readLine line :: .sendChunk chunk ::
                  streamLoop um cancelAt readErr rest (n + 1)

/-- The environment of one streaming call: which fallible setup steps fail,
the HTTP status, the raw response body (as read by `parseError` on the
non-success path), the lines yielded by the scanner on the success path, and
the final `scanner.Err()` value. -/
structure StreamInput where
  marshalErr : Option String
  newRequestErr : Option String
  doErr : Option String
  status : Nat
  rawBody : String
  bodyLines : List String
  readErr : Option String
deriving Repr

/-- The full event trace of the goroutine spawned by `ChatCompletionStream`
(client.go lines 83-152).  Setup failures send one wrapped error; a
non-success status sends the classified `APIError`; otherwise the scanner
loop runs.  The deferred `close(errs)`/`close(chunks)` always terminate the
trace. -/
def chatCompletionStreamTrace (c : Client) (pe : String → Option ErrorResponse)
    (um : String → Option ChatStreamChunk) (cancelAt : Nat → Bool)
    (inp : StreamInput) : List StreamEvent :=
  match inp.marshalErr with
  | some e => [.sendErr (.wrapped "marshal request" e), .closeErrs, .closeChunks]
  | none =>
    match inp.newRequestErr with
    | some e => [.sendErr (.wrapped "create request" e), .closeErrs, .closeChunks]
    | none =>
      match inp.doErr with
      | some e =>
          [.exchange {}, .sendErr (.wrapped "send request" e),
           .closeErrs, .closeChunks]
      | none =>
        if inp.status ≠ 200 then
          [.exchange {},
           .sendErr (.api (parseError pe inp.status inp.rawBody)),
           .closeErrs, .closeChunks]
        else
          .exchange {} :: streamLoop um cancelAt inp.readErr inp.bodyLines 0

/-! ### Trace observations -/

/-- The chunks delivered on the frame channel, in delivery order. -/
def chunksSent (t : List StreamEvent) : List ChatStreamChunk :=
  t.filterMap fun e =>
    match e with
    | .sendChunk c => some c
    | _ => none

/-- The errors delivered on the error channel, in delivery order. -/
def errorsSent (t : List StreamEvent) : List SdkError :=
  t.filterMap fun e =>
    match e with
    | .sendErr e => some e
    | _ => none

/-- The body lines read by the scanner, in read order. -/
def linesRead (t : List StreamEvent) : List String :=
  t.filterMap fun e =>
    match e with
    | .readLine l => some l
    | _ => none

/-- The HTTP client configurations with which an exchange was performed. -/
def exchangesIn (t : List StreamEvent) : List HTTPClient :=
  t.filterMap fun e =>
    match e with
    | .exchange hc => some hc
    | _ => none

/-- Whether an event is one of the two channel closes. -/
def isClose : StreamEvent → Bool
  | .closeErrs => true
  | .closeChunks => true
  | _ => false

/-- The payloads of the `data: `-marked lines of a body, in wire order. -/
def dataPayloads (lines : List String) : List String :=
  lines.filterMap fun l =>
    if dataMarked l then some (trimDataMark l) else none

/-- The text carried by one chunk: its per-choice delta contents, in choice
order. -/
def chunkText (c : ChatStreamChunk) : String :=
  String.join (c.choices.map fun ch => ch.delta.content)

/-- The generated text reconstructed from a chunk sequence. -/
def fullText (cs : List ChatStreamChunk) : String :=
  String.join (cs.map chunkText)

/-- No event of the list is a channel close. -/
def noCloseIn (l : List StreamEvent) : Prop :=
  ∀ e ∈ l, isClose e = false

/-! ### Identity headers (spec-modelled)

The full client of this repository also carries layered identity headers:
client-wide defaults installed with `SetUserID` / `SetConversationID` /
`SetCognitiveDisabled` and per-call overrides passed as `RequestOptions`
(see `ChatCompletionWithOptions` in test/test_deployment.go and the
`RequestOptions` type in USAGE_GUIDE.md).  The source of that resolution
logic is not among the provided files — only its tests, documentation and
callers are — so it is modelled below from the spec. -/

/-- Modelled from the spec: per-request header options for cognitive
features (USAGE_GUIDE.md `RequestOptions`); the resolving source code is not
under the provided files. -/
structure RequestOptions where
  userID : String
  conversationID : String
  cognitiveDisabled : Bool
deriving DecidableEq, Repr

/-- Modelled from the spec: the client-wide identity defaults set by
`SetUserID`, `SetConversationID`, `SetCognitiveDisabled`; the source code
holding them is not under the provided files. -/
structure IdentityDefaults where
  userID : String
  conversationID : String
  cognitiveDisabled : Bool
deriving DecidableEq, Repr

/-- Modelled from the spec: per-field precedence resolution, "override,
else default" (spec section 4.1 and 3: override > default > absent). -/
def resolveIdentity (override defaultVal : String) : String :=
  if override ≠ "" then override else defaultVal

/-- Modelled from the spec: "The three optional identity headers are set
only if the resolved value (override, else default) is non-empty; each
resolves independently" (spec section 4.1); the boolean cognitive flag is set
to the literal "true" when enabled at either layer (test/test_deployment.go
expects `X-Cognitive-Disabled: true`). -/
def setIdentityHeaders (d : IdentityDefaults) (o : RequestOptions)
    (hs : List (String × String)) : List (String × String) :=
  let u := resolveIdentity o.userID d.userID
  let hs := if u ≠ "" then setHeader hs "X-User-ID" u else hs
  let conv := resolveIdentity o.conversationID d.conversationID
  let hs := if conv ≠ "" then setHeader hs "X-Conversation-ID" conv else hs
  if o.cognitiveDisabled || d.cognitiveDisabled then
    setHeader hs "X-Cognitive-Disabled" "true"
  else hs

/-! ### Concrete values used by the witnesses -/

/-- A concrete stream chunk carrying the delta text "Hello". -/
def chunkA : ChatStreamChunk :=
  { id := "c1", object := "chat.completion.chunk", created := 1, model := "m"
    choices := [{ index := 0, delta := { role := "", content := "Hello" }
                  finishReason := none }]
    usage := none }

/-- A concrete stream chunk carrying the delta text " world". -/
def chunkB : ChatStreamChunk :=
  { id := "c2", object := "chat.completion.chunk", created := 2, model := "m"
    choices := [{ index := 0, delta := { role := "", content := " world" }
                  finishReason := none }]
    usage := none }

/-- A concrete `json.Unmarshal` oracle: payload "A" is chunkA, payload "B"
is chunkB, everything else (including the sentinel) fails to parse. -/
def umDemo (s : String) : Option ChatStreamChunk :=
  if s = "A" then some chunkA else if s = "B" then some chunkB else none

/-- A concrete error envelope, as for the 401 scenario of the spec. -/
def envDemo : ErrorResponse :=
  { error := { message := "bad key", type' := "invalid_request_error"
               param := none, code := none } }

/-- A concrete `json.Unmarshal` oracle for `ErrorResponse`: only the body
"envelope-body" parses. -/
def peDemo (s : String) : Option ErrorResponse :=
  if s = "envelope-body" then some envDemo else none

/-- A successful streaming environment with the given body lines. -/
def inpOk (lines : List String) : StreamInput :=
  { marshalErr := none, newRequestErr := none, doErr := none, status := 200
    rawBody := "", bodyLines := lines, readErr := none }

/-- A streaming environment whose response has the given non-success status
and raw body. -/
def inpStatus (status : Nat) (rawBody : String) : StreamInput :=
  { marshalErr := none, newRequestErr := none, doErr := none, status := status
    rawBody := rawBody, bodyLines := [], readErr := none }

/-- A concrete client for the witnesses. -/
def cDemo : Client := NewClient "http://localhost:8080" "test-key"

/-- The cancellation oracle under which the caller never cancels. -/
def noCancel : Nat → Bool := fun _ => false

/-- The cancellation oracle under which cancellation wins every race. -/
def alwaysCancel : Nat → Bool := fun _ => true

/-! ## Observation lemmas -/

@[simp] theorem chunksSent_nil : chunksSent [] = [] := rfl

@[simp] theorem chunksSent_cons_exchange (hc : HTTPClient) (t : List StreamEvent) :
    chunksSent (.exchange hc :: t) = chunksSent t := rfl

@[simp] theorem chunksSent_cons_readLine (l : String) (t : List StreamEvent) :
    chunksSent (.readLine l :: t) = chunksSent t := rfl

@[simp] theorem chunksSent_cons_sendChunk (c : ChatStreamChunk)
    (t : List StreamEvent) : chunksSent (.sendChunk c :: t) = c :: chunksSent t := rfl

@[simp] theorem chunksSent_cons_sendErr (e : SdkError) (t : List StreamEvent) :
    chunksSent (.sendErr e :: t) = chunksSent t := rfl

@[simp] theorem chunksSent_cons_cancelWins (t : List StreamEvent) :
    chunksSent (.cancelWins :: t) = chunksSent t := rfl

@[simp] theorem chunksSent_cons_closeErrs (t : List StreamEvent) :
    chunksSent (.closeErrs :: t) = chunksSent t := rfl

@[simp] theorem chunksSent_cons_closeChunks (t : List StreamEvent) :
    chunksSent (.closeChunks :: t) = chunksSent t := rfl

@[simp] theorem errorsSent_nil : errorsSent [] = [] := rfl

@[simp] theorem errorsSent_cons_exchange (hc : HTTPClient) (t : List StreamEvent) :
    errorsSent (.exchange hc :: t) = errorsSent t := rfl

@[simp] theorem errorsSent_cons_readLine (l : String) (t : List StreamEvent) :
    errorsSent (.readLine l :: t) = errorsSent t := rfl

@[simp] theorem errorsSent_cons_sendChunk (c : ChatStreamChunk)
    (t : List StreamEvent) : errorsSent (.sendChunk c :: t) = errorsSent t := rfl

@[simp] theorem errorsSent_cons_sendErr (e : SdkError) (t : List StreamEvent) :
    errorsSent (.sendErr e :: t) = e :: errorsSent t := rfl

@[simp] theorem errorsSent_cons_cancelWins (t : List StreamEvent) :
    errorsSent (.cancelWins :: t) = errorsSent t := rfl

@[simp] theorem errorsSent_cons_closeErrs (t : List StreamEvent) :
    errorsSent (.closeErrs :: t) = errorsSent t := rfl

@[simp] theorem errorsSent_cons_closeChunks (t : List StreamEvent) :
    errorsSent (.closeChunks :: t) = errorsSent t := rfl

@[simp] theorem linesRead_nil : linesRead [] = [] := rfl

@[simp] theorem linesRead_cons_exchange (hc : HTTPClient) (t : List StreamEvent) :
    linesRead (.exchange hc :: t) = linesRead t := rfl

@[simp] theorem linesRead_cons_readLine (l : String) (t : List StreamEvent) :
    linesRead (.readLine l :: t) = l :: linesRead t := rfl

@[simp] theorem linesRead_cons_sendChunk (c : ChatStreamChunk)
    (t : List StreamEvent) : linesRead (.sendChunk c :: t) = linesRead t := rfl

@[simp] theorem linesRead_cons_sendErr (e : SdkError) (t : List StreamEvent) :
    linesRead (.sendErr e :: t) = linesRead t := rfl

@[simp] theorem linesRead_cons_cancelWins (t : List StreamEvent) :
    linesRead (.cancelWins :: t) = linesRead t := rfl

@[simp] theorem linesRead_cons_closeErrs (t : List StreamEvent) :
    linesRead (.closeErrs :: t) = linesRead t := rfl

@[simp] theorem linesRead_cons_closeChunks (t : List StreamEvent) :
    linesRead (.closeChunks :: t) = linesRead t := rfl

@[simp] theorem exchangesIn_nil : exchangesIn [] = [] := rfl

@[simp] theorem exchangesIn_cons_exchange (hc : HTTPClient) (t : List StreamEvent) :
    exchangesIn (.exchange hc :: t) = hc :: exchangesIn t := rfl

@[simp] theorem exchangesIn_cons_readLine (l : String) (t : List StreamEvent) :
    exchangesIn (.readLine l :: t) = exchangesIn t := rfl

@[simp] theorem exchangesIn_cons_sendChunk (c : ChatStreamChunk)
    (t : List StreamEvent) : exchangesIn (.sendChunk c :: t) = exchangesIn t := rfl

@[simp] theorem exchangesIn_cons_sendErr (e : SdkError) (t : List StreamEvent) :
    exchangesIn (.sendErr e :: t) = exchangesIn t := rfl

@[simp] theorem exchangesIn_cons_cancelWins (t : List StreamEvent) :
    exchangesIn (.cancelWins :: t) = exchangesIn t := rfl

@[simp] theorem exchangesIn_cons_closeErrs (t : List StreamEvent) :
    exchangesIn (.closeErrs :: t) = exchangesIn t := rfl

@[simp] theorem exchangesIn_cons_closeChunks (t : List StreamEvent) :
    exchangesIn (.closeChunks :: t) = exchangesIn t := rfl

/-! ## Closing discipline -/

theorem noCloseIn_nil : noCloseIn [] := by
  intro e he
  cases he

theorem noCloseIn_cons {a : StreamEvent} {l : List StreamEvent}
    (ha : isClose a = false) (hl : noCloseIn l) : noCloseIn (a :: l) := by
  intro e he
  rcases List.mem_cons.mp he with rfl | he
  · exact ha
  · exact hl e he

theorem streamLoop_closed (um : String → Option ChatStreamChunk)
    (cancelAt : Nat → Bool) (readErr : Option String) :
    ∀ (lines : List String) (n : Nat),
      ∃ pre, streamLoop um cancelAt readErr lines n =
          pre ++ [.closeErrs, .closeChunks] ∧ noCloseIn pre := by
  intro lines
  induction lines with
  | nil =>
      intro n
      cases readErr with
      | none => exact ⟨[], by simp [streamLoop], noCloseIn_nil⟩
      | some e =>
          exact ⟨[.sendErr (.wrapped "read stream" e)], by simp [streamLoop],
            noCloseIn_cons rfl noCloseIn_nil⟩
  | cons line rest ih =>
      intro n
      by_cases h1 : line = ""
      · obtain ⟨pre, hp, hc⟩ := ih n
        exact ⟨.readLine line :: pre, by simp [streamLoop, h1, hp],
          noCloseIn_cons rfl hc⟩
      · by_cases h2 : dataMarked line = true
        · by_cases h3 : trimDataMark line = "[DONE]"
          · exact ⟨[.readLine line], by simp [streamLoop, h1, h2, h3],
              noCloseIn_cons rfl noCloseIn_nil⟩
          · cases hum : um (trimDataMark line) with
            | none =>
                obtain ⟨pre, hp, hc⟩ := ih n
                exact ⟨.readLine line :: pre,
                  by simp [streamLoop, h1, h2, h3, hum, hp],
                  noCloseIn_cons rfl hc⟩
            | some chunk =>
                by_cases h4 : cancelAt n = true
                · exact ⟨[.readLine line, .cancelWins],
                    by simp [streamLoop, h1, h2, h3, hum, h4],
                    noCloseIn_cons rfl (noCloseIn_cons rfl noCloseIn_nil)⟩
                · obtain ⟨pre, hp, hc⟩ := ih (n + 1)
                  exact ⟨.readLine line :: .sendChunk chunk :: pre,
                    by simp [streamLoop, h1, h2, h3, hum, h4, hp],
                    noCloseIn_cons rfl (noCloseIn_cons rfl hc)⟩
        · obtain ⟨pre, hp, hc⟩ := ih n
          exact ⟨.readLine line :: pre, by simp [streamLoop, h1, h2, hp],
            noCloseIn_cons rfl hc⟩

theorem streamTrace_closed (c : Client) (pe : String → Option ErrorResponse)
    (um : String → Option ChatStreamChunk) (cancelAt : Nat → Bool)
    (inp : StreamInput) :
    ∃ pre, chatCompletionStreamTrace c pe um cancelAt inp =
        pre ++ [.closeErrs, .closeChunks] ∧ noCloseIn pre := by
  unfold chatCompletionStreamTrace
  cases hm : inp.marshalErr with
  | some e =>
      exact ⟨[.sendErr (.wrapped "marshal request" e)], by simp,
        noCloseIn_cons rfl noCloseIn_nil⟩
  | none =>
    cases hr : inp.newRequestErr with
    | some e =>
        exact ⟨[.sendErr (.wrapped "create request" e)], by simp,
          noCloseIn_cons rfl noCloseIn_nil⟩
    | none =>
      cases hd : inp.doErr with
      | some e =>
          exact ⟨[.exchange {}, .sendErr (.wrapped "send request" e)], by simp,
            noCloseIn_cons rfl (noCloseIn_cons rfl noCloseIn_nil)⟩
      | none =>
          by_cases hs : inp.status ≠ 200
          · exact ⟨[.exchange {},
              .sendErr (.api (parseError pe inp.status inp.rawBody))],
              by simp [hs], noCloseIn_cons rfl (noCloseIn_cons rfl noCloseIn_nil)⟩
          · obtain ⟨pre, hp, hc⟩ :=
              streamLoop_closed um cancelAt inp.readErr inp.bodyLines 0
            exact ⟨.exchange {} :: pre, by simp [hs, hp], noCloseIn_cons rfl hc⟩

/-- C6: On every exit path of a streaming call — marshal failure,
request-creation failure, send failure, non-success status, sentinel
termination, mid-stream read failure, and cancellation — both the frame
channel and the error channel are closed exactly once, only by the producing
goroutine, and only after the last send: the trace always ends with
`close(errs)` then `close(chunks)`, and no close event occurs anywhere
else. -/
theorem chatCompletionStream_close_discipline (c : Client)
    (pe : String → Option ErrorResponse) (um : String → Option ChatStreamChunk)
    (cancelAt : Nat → Bool) (inp : StreamInput) :
    ∃ pre, chatCompletionStreamTrace c pe um cancelAt inp =
        pre ++ [.closeErrs, .closeChunks] ∧ noCloseIn pre :=
  streamTrace_closed c pe um cancelAt inp

/-! ## Frame delivery (C1 support) -/

theorem dataPayloads_nil : dataPayloads [] = [] := rfl

theorem dataPayloads_cons_pos (l : String) (rest : List String)
    (h : dataMarked l = true) :
    dataPayloads (l :: rest) = trimDataMark l :: dataPayloads rest := by
  simp [dataPayloads, List.filterMap_cons, h]

theorem dataPayloads_cons_neg (l : String) (rest : List String)
    (h : dataMarked l = false) :
    dataPayloads (l :: rest) = dataPayloads rest := by
  simp [dataPayloads, List.filterMap_cons, h]

theorem streamLoop_chunks (um : String → Option ChatStreamChunk)
    (cancelAt : Nat → Bool) (readErr : Option String)
    (hcancel : ∀ n, cancelAt n = false) :
    ∀ (lines : List String) (n : Nat),
      chunksSent (streamLoop um cancelAt readErr lines n) =
        ((dataPayloads lines).takeWhile (fun p => !(p == "[DONE]"))).filterMap
          um := by
  intro lines
  induction lines with
  | nil =>
      intro n
      cases readErr <;> simp [streamLoop, dataPayloads]
  | cons line rest ih =>
      intro n
      by_cases h1 : line = ""
      · have h2 : dataMarked line = false := by
          rw [h1]; decide
        rw [dataPayloads_cons_neg line rest h2]
        simp [streamLoop, h1, ih n]
      · by_cases h2 : dataMarked line = true
        · rw [dataPayloads_cons_pos line rest h2]
          by_cases h3 : trimDataMark line = "[DONE]"
          · rw [h3]
            simp [streamLoop, h1, h2, h3, List.takeWhile_cons]
          · have hne : (trimDataMark line == "[DONE]") = false := by
              simp [h3]
            cases hum : um (trimDataMark line) with
            | none =>
                simp [streamLoop, h1, h2, h3, hum, ih n,
                  List.takeWhile_cons, hne]
            | some chunk =>
                simp [streamLoop, h1, h2, h3, hum, hcancel n, ih (n + 1),
                  List.takeWhile_cons, hne]
        · have h2' : dataMarked line = false := by
            simpa using h2
          rw [dataPayloads_cons_neg line rest h2']
          simp [streamLoop, h1, h2', ih n]

theorem filterMap_filter_sentinel (um : String → Option ChatStreamChunk)
    (hum : um "[DONE]" = none) :
    ∀ l : List String,
      (l.filter (fun p => !(p == "[DONE]"))).filterMap um = l.filterMap um := by
  intro l
  induction l with
  | nil => rfl
  | cons a t ih =>
      by_cases h : a = "[DONE]"
      · subst h
        simp [List.filter_cons, List.filterMap_cons, hum, ih]
      · have hb : (a == "[DONE]") = false := by simp [h]
        simp [List.filter_cons, List.filterMap_cons, hb, ih]

/-- C1: For a streaming call whose HTTP exchange succeeds with status 200
(and which the caller does not cancel), the sequence of chunks delivered on
the frame channel equals, in order, the sequence of successfully-parsed
`data: `-payloads of the response body — no reordering, no batching — so the
concatenated per-choice delta content of the delivered frames reconstructs
exactly the full generated text.  Well-formedness hypothesis: every data
payload after the first sentinel (if any) is itself the sentinel; the
sentinel itself never parses as a chunk. -/
theorem chatCompletionStream_delivers_parsed_payloads (c : Client)
    (pe : String → Option ErrorResponse) (um : String → Option ChatStreamChunk)
    (cancelAt : Nat → Bool) (inp : StreamInput)
    (hm : inp.marshalErr = none) (hr : inp.newRequestErr = none)
    (hd : inp.doErr = none) (hs : inp.status = 200)
    (hcancel : ∀ n, cancelAt n = false)
    (hum : um "[DONE]" = none)
    (hwf : (dataPayloads inp.bodyLines).takeWhile (fun p => !(p == "[DONE]")) =
        (dataPayloads inp.bodyLines).filter (fun p => !(p == "[DONE]"))) :
    chunksSent (chatCompletionStreamTrace c pe um cancelAt inp) =
        (dataPayloads inp.bodyLines).filterMap um ∧
    fullText (chunksSent (chatCompletionStreamTrace c pe um cancelAt inp)) =
        fullText ((dataPayloads inp.bodyLines).filterMap um) := by
  have hmain : chunksSent (chatCompletionStreamTrace c pe um cancelAt inp) =
      (dataPayloads inp.bodyLines).filterMap um := by
    unfold chatCompletionStreamTrace
    rw [hm, hr, hd]
    simp only [hs, ne_eq, not_true_eq_false, if_false, chunksSent_cons_exchange]
    rw [streamLoop_chunks um cancelAt inp.readErr hcancel inp.bodyLines 0, hwf,
      filterMap_filter_sentinel um hum]
  exact ⟨hmain, by rw [hmain]⟩

/-- Witness for C1: a concrete stream with a blank line, a keep-alive
comment line, a corrupt payload, two valid frames and the sentinel. -/
theorem chatCompletionStream_delivers_parsed_payloads_witness :
    chunksSent (chatCompletionStreamTrace cDemo peDemo umDemo noCancel
        (inpOk ["data: A", "", ": keep-alive", "data: bad", "data: B",
          "data: [DONE]"])) =
      [chunkA, chunkB] ∧
    fullText (chunksSent (chatCompletionStreamTrace cDemo peDemo umDemo
        noCancel (inpOk ["data: A", "", ": keep-alive", "data: bad",
          "data: B", "data: [DONE]"]))) = "Hello world" := by
  obtain ⟨h1, h2⟩ := chatCompletionStream_delivers_parsed_payloads cDemo peDemo
    umDemo noCancel
    (inpOk ["data: A", "", ": keep-alive", "data: bad", "data: B",
      "data: [DONE]"])
    rfl rfl rfl rfl (fun _ => rfl) rfl (by decide)
  constructor
  · rw [h1]; decide
  · rw [h2]; decide

/-! ## Sentinel termination (C2) -/

theorem streamLoop_sentinel_no_error (um : String → Option ChatStreamChunk)
    (cancelAt : Nat → Bool) (readErr : Option String) :
    ∀ (lines : List String) (n : Nat), "data: [DONE]" ∈ lines →
      errorsSent (streamLoop um cancelAt readErr lines n) = [] := by
  intro lines
  induction lines with
  | nil =>
      intro n h
      cases h
  | cons line rest ih =>
      intro n hmem
      by_cases h1 : line = ""
      · have hmem' : "data: [DONE]" ∈ rest := by
          rcases List.mem_cons.mp hmem with h | h
          · rw [h1] at h; exact absurd h (by decide)
          · exact h
        simp [streamLoop, h1, ih n hmem']
      · by_cases h2 : dataMarked line = true
        · by_cases h3 : trimDataMark line = "[DONE]"
          · simp [streamLoop, h1, h2, h3]
          · have hmem' : "data: [DONE]" ∈ rest := by
              rcases List.mem_cons.mp hmem with h | h
              · rw [← h] at h3; exact absurd (by decide) h3
              · exact h
            cases hum : um (trimDataMark line) with
            | none => simp [streamLoop, h1, h2, h3, hum, ih n hmem']
            | some chunk =>
                by_cases h4 : cancelAt n = true
                · simp [streamLoop, h1, h2, h3, hum, h4]
                · simp [streamLoop, h1, h2, h3, hum, h4, ih (n + 1) hmem']
        · have hmem' : "data: [DONE]" ∈ rest := by
            rcases List.mem_cons.mp hmem with h | h
            · rw [← h] at h2; exact absurd (by decide) h2
            · exact h
          simp [streamLoop, h1, h2, ih n hmem']

/-- C2: A streaming call whose body ends with the sentinel line
`data: [DONE]` terminates normally, whatever the cancellation race does: no
value is ever sent on the error channel, and both channels are closed
(exactly once, at the very end of the trace). -/
theorem chatCompletionStream_sentinel_normal_termination (c : Client)
    (pe : String → Option ErrorResponse) (um : String → Option ChatStreamChunk)
    (cancelAt : Nat → Bool) (inp : StreamInput)
    (hm : inp.marshalErr = none) (hr : inp.newRequestErr = none)
    (hd : inp.doErr = none) (hs : inp.status = 200)
    (hlast : inp.bodyLines.getLast? = some "data: [DONE]") :
    errorsSent (chatCompletionStreamTrace c pe um cancelAt inp) = [] ∧
    ∃ pre, chatCompletionStreamTrace c pe um cancelAt inp =
        pre ++ [.closeErrs, .closeChunks] ∧ noCloseIn pre := by
  have hmem : "data: [DONE]" ∈ inp.bodyLines := by
    rcases List.mem_getLast?_eq_getLast
        (l := inp.bodyLines) (x := "data: [DONE]") hlast with ⟨hne, heq⟩
    rw [heq]
    exact List.getLast_mem hne
  constructor
  · unfold chatCompletionStreamTrace
    rw [hm, hr, hd]
    simp only [hs, ne_eq, not_true_eq_false, if_false, errorsSent_cons_exchange]
    exact streamLoop_sentinel_no_error um cancelAt inp.readErr inp.bodyLines 0
      hmem
  · exact streamTrace_closed c pe um cancelAt inp

/-- Witness for C2: a concrete two-line stream ending with the sentinel. -/
theorem chatCompletionStream_sentinel_normal_termination_witness :
    errorsSent (chatCompletionStreamTrace cDemo peDemo umDemo noCancel
        (inpOk ["data: A", "data: [DONE]"])) = [] ∧
    ∃ pre, chatCompletionStreamTrace cDemo peDemo umDemo noCancel
        (inpOk ["data: A", "data: [DONE]"]) =
        pre ++ [.closeErrs, .closeChunks] ∧ noCloseIn pre :=
  chatCompletionStream_sentinel_normal_termination cDemo peDemo umDemo noCancel
    (inpOk ["data: A", "data: [DONE]"]) rfl rfl rfl rfl rfl

/-! ## Non-success status (C3) -/

/-- C3: A streaming call whose HTTP response has a non-success status never
sends a frame; it sends exactly one error — the classified `APIError` — and
then closes both channels; no line of the streaming body is ever read or
decoded by the stream loop. -/
theorem chatCompletionStream_nonsuccess_single_error (c : Client)
    (pe : String → Option ErrorResponse) (um : String → Option ChatStreamChunk)
    (cancelAt : Nat → Bool) (inp : StreamInput)
    (hm : inp.marshalErr = none) (hr : inp.newRequestErr = none)
    (hd : inp.doErr = none) (hs : inp.status ≠ 200) :
    chatCompletionStreamTrace c pe um cancelAt inp =
      [.exchange {}, .sendErr (.api (parseError pe inp.status inp.rawBody)),
       .closeErrs, .closeChunks] ∧
    chunksSent (chatCompletionStreamTrace c pe um cancelAt inp) = [] ∧
    errorsSent (chatCompletionStreamTrace c pe um cancelAt inp) =
      [.api (parseError pe inp.status inp.rawBody)] ∧
    linesRead (chatCompletionStreamTrace c pe um cancelAt inp) = [] := by
  have ht : chatCompletionStreamTrace c pe um cancelAt inp =
      [.exchange {}, .sendErr (.api (parseError pe inp.status inp.rawBody)),
       .closeErrs, .closeChunks] := by
    unfold chatCompletionStreamTrace
    rw [hm, hr, hd]
    simp [hs]
  refine ⟨ht, ?_, ?_, ?_⟩ <;> rw [ht] <;> rfl

/-- Witness for C3: a 500 response whose body is not a JSON envelope. -/
theorem chatCompletionStream_nonsuccess_single_error_witness :
    chatCompletionStreamTrace cDemo peDemo umDemo noCancel
        (inpStatus 500 "internal server error") =
      [.exchange {},
       .sendErr (.api (parseError peDemo 500 "internal server error")),
       .closeErrs, .closeChunks] ∧
    chunksSent (chatCompletionStreamTrace cDemo peDemo umDemo noCancel
        (inpStatus 500 "internal server error")) = [] ∧
    errorsSent (chatCompletionStreamTrace cDemo peDemo umDemo noCancel
        (inpStatus 500 "internal server error")) =
      [.api (parseError peDemo 500 "internal server error")] ∧
    linesRead (chatCompletionStreamTrace cDemo peDemo umDemo noCancel
        (inpStatus 500 "internal server error")) = [] :=
  chatCompletionStream_nonsuccess_single_error cDemo peDemo umDemo noCancel
    (inpStatus 500 "internal server error") rfl rfl rfl (by decide)

/-! ## Corrupt line leniency (C4) -/

theorem ne_empty_of_dataMarked {l : String} (h : dataMarked l = true) :
    l ≠ "" := by
  intro he
  rw [he] at h
  exact absurd h (by decide)

/-- C4: A `data: `-marked line whose payload is neither the sentinel nor
valid JSON for a chunk is skipped silently — the loop just continues with
the next line — and a stream containing one corrupt line between two valid
frames still delivers both valid frames, terminates at the sentinel, and
sends no error. -/
theorem chatCompletionStream_corrupt_line_skipped
    (um : String → Option ChatStreamChunk) (cancelAt : Nat → Bool)
    (readErr : Option String) :
    (∀ (line : String) (rest : List String) (n : Nat),
        dataMarked line = true → trimDataMark line ≠ "[DONE]" →
        um (trimDataMark line) = none →
        streamLoop um cancelAt readErr (line :: rest) n =
          .readLine line :: streamLoop um cancelAt readErr rest n) ∧
    (∀ (v1 cpt v2 : String) (c1 c2 : ChatStreamChunk),
        dataMarked v1 = true → trimDataMark v1 ≠ "[DONE]" →
        um (trimDataMark v1) = some c1 →
        dataMarked cpt = true → trimDataMark cpt ≠ "[DONE]" →
        um (trimDataMark cpt) = none →
        dataMarked v2 = true → trimDataMark v2 ≠ "[DONE]" →
        um (trimDataMark v2) = some c2 →
        (∀ n, cancelAt n = false) →
        chunksSent (streamLoop um cancelAt readErr
            [v1, cpt, v2, "data: [DONE]"] 0) = [c1, c2] ∧
        errorsSent (streamLoop um cancelAt readErr
            [v1, cpt, v2, "data: [DONE]"] 0) = []) := by
  constructor
  · intro line rest n hmark hpay hum
    have h1 : line ≠ "" := ne_empty_of_dataMarked hmark
    simp [streamLoop, h1, hmark, hpay, hum]
  · intro v1 cpt v2 c1 c2 hm1 hp1 hu1 hmc hpc huc hm2 hp2 hu2 hcancel
    have e1 : streamLoop um cancelAt readErr [v1, cpt, v2, "data: [DONE]"] 0 =
        [.readLine v1, .sendChunk c1, .readLine cpt, .readLine v2,
         .sendChunk c2, .readLine "data: [DONE]", .closeErrs, .closeChunks] := by
      simp [streamLoop, ne_empty_of_dataMarked hm1, hm1, hp1, hu1, hcancel 0,
        ne_empty_of_dataMarked hmc, hmc, hpc, huc,
        ne_empty_of_dataMarked hm2, hm2, hp2, hu2, hcancel 1,
        (by decide : ¬("data: [DONE]" = "")),
        (by decide : dataMarked "data: [DONE]" = true),
        (by decide : trimDataMark "data: [DONE]" = "[DONE]")]
    rw [e1]
    exact ⟨rfl, rfl⟩

/-- Witness for C4: the corrupt payload "bad" between the valid payloads "A"
and "B" under the concrete parse oracle. -/
theorem chatCompletionStream_corrupt_line_skipped_witness :
    chunksSent (streamLoop umDemo noCancel none
        ["data: A", "data: bad", "data: B", "data: [DONE]"] 0) =
      [chunkA, chunkB] ∧
    errorsSent (streamLoop umDemo noCancel none
        ["data: A", "data: bad", "data: B", "data: [DONE]"] 0) = [] :=
  (chatCompletionStream_corrupt_line_skipped umDemo noCancel none).2
    "data: A" "data: bad" "data: B" chunkA chunkB
    (by decide) (by decide) (by decide)
    (by decide) (by decide) (by decide)
    (by decide) (by decide) (by decide)
    (fun _ => rfl)

/-! ## Error classifier (C5) -/

/-- C5: The error classifier always carries the response status; a body that
parses as the `ErrorResponse` envelope is returned verbatim, and a body that
does not parse yields a synthesized envelope whose message is the raw body
text and whose type is "unknown_error" — the parse failure itself never
surfaces as a separate error. -/
theorem parseError_classification (pe : String → Option ErrorResponse)
    (status : Nat) (body : String) :
    (parseError pe status body).statusCode = status ∧
    (∀ er, pe body = some er → (parseError pe status body).errorBody = er) ∧
    (pe body = none → (parseError pe status body).errorBody =
      { error := { message := body, type' := "unknown_error", param := none,
                   code := none } }) := by
  cases h : pe body <;> simp [parseError, h]

/-- Witness for C5: the 401 scenario (JSON envelope, returned verbatim) and
the 500 scenario (non-JSON body, synthesized envelope). -/
theorem parseError_classification_witness :
    (parseError peDemo 401 "envelope-body").statusCode = 401 ∧
    (parseError peDemo 401 "envelope-body").errorBody = envDemo ∧
    (parseError peDemo 500 "internal server error").statusCode = 500 ∧
    (parseError peDemo 500 "internal server error").errorBody =
      { error := { message := "internal server error", type' := "unknown_error",
                   param := none, code := none } } := by
  obtain ⟨hA, hB, -⟩ := parseError_classification peDemo 401 "envelope-body"
  obtain ⟨hC, -, hD⟩ := parseError_classification peDemo 500
    "internal server error"
  exact ⟨hA, hB envDemo (by decide), hC, hD (by decide)⟩

/-! ## Header composition (C7, C8) -/

theorem getHeader_setHeader_same (hs : List (String × String)) (k v : String) :
    getHeader (setHeader hs k v) k = some v := by
  simp [getHeader, setHeader, List.find?_cons]

theorem find?_filter_ne (k k' : String) (h : k' ≠ k) :
    ∀ hs : List (String × String),
      (hs.filter (fun p => !(p.1 == k))).find? (fun p => p.1 == k') =
        hs.find? (fun p => p.1 == k') := by
  intro hs
  induction hs with
  | nil => rfl
  | cons p t ih =>
      by_cases hp : p.1 = k
      · have hk : (p.1 == k) = true := by simp [hp]
        have hk' : (p.1 == k') = false := by
          rw [hp]
          exact beq_eq_false_iff_ne.mpr (Ne.symm h)
        simp [List.filter_cons, hk, List.find?_cons, hk', ih]
      · have hk : (p.1 == k) = false := beq_eq_false_iff_ne.mpr hp
        by_cases hq : p.1 = k'
        · have hk' : (p.1 == k') = true := by simp [hq]
          simp [List.filter_cons, hk, List.find?_cons, hk']
        · have hk' : (p.1 == k') = false := beq_eq_false_iff_ne.mpr hq
          simp [List.filter_cons, hk, List.find?_cons, hk', ih]

theorem getHeader_setHeader_other (hs : List (String × String))
    (k v k' : String) (h : k' ≠ k) :
    getHeader (setHeader hs k v) k' = getHeader hs k' := by
  have hkk : ((k, v).1 == k') = false := beq_eq_false_iff_ne.mpr (Ne.symm h)
  simp [getHeader, setHeader, List.find?_cons, hkk, find?_filter_ne k k' h hs]

theorem setIdentityHeaders_userID (d : IdentityDefaults) (o : RequestOptions) :
    getHeader (setIdentityHeaders d o []) "X-User-ID" =
      (if resolveIdentity o.userID d.userID ≠ ""
       then some (resolveIdentity o.userID d.userID) else none) := by
  unfold setIdentityHeaders
  by_cases hcog : (o.cognitiveDisabled || d.cognitiveDisabled) = true
  · rw [if_pos hcog, getHeader_setHeader_other _ _ _ _ (by decide)]
    by_cases hconv : resolveIdentity o.conversationID d.conversationID ≠ ""
    · rw [if_pos hconv, getHeader_setHeader_other _ _ _ _ (by decide)]
      by_cases hu : resolveIdentity o.userID d.userID ≠ ""
      · rw [if_pos hu, if_pos hu]
        exact getHeader_setHeader_same _ _ _
      · rw [if_neg hu, if_neg hu]
        rfl
    · rw [if_neg hconv]
      by_cases hu : resolveIdentity o.userID d.userID ≠ ""
      · rw [if_pos hu, if_pos hu]
        exact getHeader_setHeader_same _ _ _
      · rw [if_neg hu, if_neg hu]
        rfl
  · rw [if_neg hcog]
    by_cases hconv : resolveIdentity o.conversationID d.conversationID ≠ ""
    · rw [if_pos hconv, getHeader_setHeader_other _ _ _ _ (by decide)]
      by_cases hu : resolveIdentity o.userID d.userID ≠ ""
      · rw [if_pos hu, if_pos hu]
        exact getHeader_setHeader_same _ _ _
      · rw [if_neg hu, if_neg hu]
        rfl
    · rw [if_neg hconv]
      by_cases hu : resolveIdentity o.userID d.userID ≠ ""
      · rw [if_pos hu, if_pos hu]
        exact getHeader_setHeader_same _ _ _
      · rw [if_neg hu, if_neg hu]
        rfl

theorem setIdentityHeaders_convID (d : IdentityDefaults) (o : RequestOptions) :
    getHeader (setIdentityHeaders d o []) "X-Conversation-ID" =
      (if resolveIdentity o.conversationID d.conversationID ≠ ""
       then some (resolveIdentity o.conversationID d.conversationID)
       else none) := by
  unfold setIdentityHeaders
  have huser : getHeader
      (if resolveIdentity o.userID d.userID ≠ ""
       then setHeader [] "X-User-ID" (resolveIdentity o.userID d.userID)
       else []) "X-Conversation-ID" = none := by
    by_cases hu : resolveIdentity o.userID d.userID ≠ ""
    · rw [if_pos hu, getHeader_setHeader_other _ _ _ _ (by decide)]
      rfl
    · rw [if_neg hu]
      rfl
  by_cases hcog : (o.cognitiveDisabled || d.cognitiveDisabled) = true
  · rw [if_pos hcog, getHeader_setHeader_other _ _ _ _ (by decide)]
    by_cases hconv : resolveIdentity o.conversationID d.conversationID ≠ ""
    · rw [if_pos hconv, if_pos hconv]
      exact getHeader_setHeader_same _ _ _
    · rw [if_neg hconv, if_neg hconv]
      exact huser
  · rw [if_neg hcog]
    by_cases hconv : resolveIdentity o.conversationID d.conversationID ≠ ""
    · rw [if_pos hconv, if_pos hconv]
      exact getHeader_setHeader_same _ _ _
    · rw [if_neg hconv, if_neg hconv]
      exact huser

/-- C7 (spec-modelled): the three identity headers resolve independently,
override over default: with client default user U1 and per-call override
conversation C1 the outgoing headers carry both `X-User-ID: U1` and
`X-Conversation-ID: C1`; in general the `X-User-ID` header depends only on
the user field's own override/default pair, so an override on one field
never clears a default on another. -/
theorem identity_header_layering (U1 C1 : String)
    (hU : U1 ≠ "") (hC : C1 ≠ "") :
    (getHeader (setIdentityHeaders
        { userID := U1, conversationID := "", cognitiveDisabled := false }
        { userID := "", conversationID := C1, cognitiveDisabled := false } [])
        "X-User-ID" = some U1 ∧
     getHeader (setIdentityHeaders
        { userID := U1, conversationID := "", cognitiveDisabled := false }
        { userID := "", conversationID := C1, cognitiveDisabled := false } [])
        "X-Conversation-ID" = some C1) ∧
    (∀ (d : IdentityDefaults) (o : RequestOptions),
      getHeader (setIdentityHeaders d o []) "X-User-ID" =
        (if o.userID ≠ "" then some o.userID
         else if d.userID ≠ "" then some d.userID else none)) := by
  have hres : ∀ (d : IdentityDefaults) (o : RequestOptions),
      getHeader (setIdentityHeaders d o []) "X-User-ID" =
        (if o.userID ≠ "" then some o.userID
         else if d.userID ≠ "" then some d.userID else none) := by
    intro d o
    rw [setIdentityHeaders_userID d o]
    unfold resolveIdentity
    by_cases hu : o.userID ≠ ""
    · rw [if_pos hu, if_pos hu, if_pos hu]
    · rw [if_neg hu, if_neg hu]
  refine ⟨⟨?_, ?_⟩, hres⟩
  · rw [hres]
    simp only [ne_eq, not_true_eq_false, if_false]
    rw [if_pos hU]
  · rw [setIdentityHeaders_convID]
    unfold resolveIdentity
    rw [if_pos hC, if_pos hC]

/-- Witness for C7: concrete default user and override conversation. -/
theorem identity_header_layering_witness :
    getHeader (setIdentityHeaders
        { userID := "global-user", conversationID := "",
          cognitiveDisabled := false }
        { userID := "", conversationID := "conv-99",
          cognitiveDisabled := false } []) "X-User-ID" = some "global-user" ∧
    getHeader (setIdentityHeaders
        { userID := "global-user", conversationID := "",
          cognitiveDisabled := false }
        { userID := "", conversationID := "conv-99",
          cognitiveDisabled := false } []) "X-Conversation-ID" =
      some "conv-99" :=
  (identity_header_layering "global-user" "conv-99" (by decide) (by decide)).1

/-- Counterexample for C8: `Health` issues a request without calling
`setHeaders`, so for a client whose API key is non-empty the outgoing
health request carries neither Content-Type nor Authorization, refuting
"for every request issued by the client". -/
theorem health_request_no_headers :
    (NewClient "http://h" "k").apiKey ≠ "" ∧
    getHeader (NewClient "http://h" "k").healthRequest.headers
      "Content-Type" = none ∧
    getHeader (NewClient "http://h" "k").healthRequest.headers
      "Authorization" = none :=
  ⟨by decide, rfl, rfl⟩

/-- C8 (amended): every request issued through `setHeaders` — all client
methods except `Health` and `Ready` — carries Content-Type
application/json, and Authorization exactly when the API key is non-empty;
`Health` and `Ready` set no headers at all. -/
theorem header_composition_amended (c : Client) :
    getHeader c.stdHeaders "Content-Type" = some "application/json" ∧
    (c.apiKey ≠ "" → getHeader c.stdHeaders "Authorization" =
        some ("Bearer " ++ c.apiKey)) ∧
    (c.apiKey = "" → getHeader c.stdHeaders "Authorization" = none) ∧
    c.healthRequest.headers = [] ∧
    c.readyRequest.headers = [] ∧
    (∀ (b modelID : String),
      (c.chatCompletionRequest b).headers = c.stdHeaders ∧
      c.listModelsRequest.headers = c.stdHeaders ∧
      (c.getModelRequest modelID).headers = c.stdHeaders ∧
      (c.createEmbeddingRequest b).headers = c.stdHeaders ∧
      (c.searchRequest b).headers = c.stdHeaders ∧
      c.getUsageRequest.headers = c.stdHeaders) := by
  refine ⟨?_, ?_, ?_, rfl, rfl, fun b modelID => ⟨rfl, rfl, rfl, rfl, rfl, rfl⟩⟩
  · unfold Client.stdHeaders Client.setHeaders
    by_cases hk : c.apiKey ≠ ""
    · rw [if_pos hk, getHeader_setHeader_other _ _ _ _ (by decide)]
      exact getHeader_setHeader_same _ _ _
    · rw [if_neg hk]
      exact getHeader_setHeader_same _ _ _
  · intro hk
    unfold Client.stdHeaders Client.setHeaders
    rw [if_pos hk]
    exact getHeader_setHeader_same _ _ _
  · intro hk
    unfold Client.stdHeaders Client.setHeaders
    rw [if_neg (by simp [hk])]
    rw [getHeader_setHeader_other _ _ _ _ (by decide)]
    rfl

/-- Witness for C8 (amended): concrete clients with and without a key. -/
theorem header_composition_amended_witness :
    getHeader cDemo.stdHeaders "Content-Type" = some "application/json" ∧
    getHeader cDemo.stdHeaders "Authorization" = some "Bearer test-key" ∧
    getHeader (NewClient "http://h" "").stdHeaders "Authorization" = none := by
  obtain ⟨h1, h2, -⟩ := header_composition_amended cDemo
  obtain ⟨-, -, h3, -⟩ := header_composition_amended (NewClient "http://h" "")
  refine ⟨h1, ?_, h3 (by decide)⟩
  rw [h2 (by decide)]
  decide

/-! ## Cancellation (C9) -/

theorem cons_eq_of_notMem {α : Type} (a : α) :
    ∀ (p q p' q' : List α), a ∉ p → a ∉ q →
      p ++ a :: q = p' ++ a :: q' → q' = q := by
  intro p
  induction p with
  | nil =>
      intro q p' q' hp hq h
      cases p' with
      | nil =>
          simp only [List.nil_append] at h
          injection h with h1 h2
          exact h2.symm
      | cons b p' =>
          simp only [List.nil_append, List.cons_append] at h
          injection h with h1 h2
          exfalso
          apply hq
          rw [h2]
          exact List.mem_append_right _ (List.mem_cons_self _ _)
  | cons x p ihp =>
      intro q p' q' hp hq h
      cases p' with
      | nil =>
          simp only [List.cons_append, List.nil_append] at h
          injection h with h1 h2
          exfalso
          apply hp
          rw [← h1]
          exact List.mem_cons_self _ _
      | cons y p' =>
          simp only [List.cons_append] at h
          injection h with h1 h2
          exact ihp q p' q' (fun hm => hp (List.mem_cons_of_mem _ hm)) hq h2

theorem streamLoop_cancel_structure (um : String → Option ChatStreamChunk)
    (cancelAt : Nat → Bool) (readErr : Option String) :
    ∀ (lines : List String) (n : Nat),
      StreamEvent.cancelWins ∉ streamLoop um cancelAt readErr lines n ∨
      ∃ pre, streamLoop um cancelAt readErr lines n =
          pre ++ [.cancelWins, .closeErrs, .closeChunks] ∧
        StreamEvent.cancelWins ∉ pre := by
  intro lines
  induction lines with
  | nil =>
      intro n
      left
      cases readErr <;> simp [streamLoop]
  | cons line rest ih =>
      intro n
      by_cases h1 : line = ""
      · rcases ih n with h | ⟨pre, hp, hn⟩
        · left
          simp [streamLoop, h1, h]
        · right
          exact ⟨.readLine line :: pre, by simp [streamLoop, h1, hp],
            by simp [hn]⟩
      · by_cases h2 : dataMarked line = true
        · by_cases h3 : trimDataMark line = "[DONE]"
          · left
            simp [streamLoop, h1, h2, h3]
          · cases hum : um (trimDataMark line) with
            | none =>
                rcases ih n with h | ⟨pre, hp, hn⟩
                · left
                  simp [streamLoop, h1, h2, h3, hum, h]
                · right
                  exact ⟨.readLine line :: pre,
                    by simp [streamLoop, h1, h2, h3, hum, hp], by simp [hn]⟩
            | some chunk =>
                by_cases h4 : cancelAt n = true
                · right
                  exact ⟨[.readLine line],
                    by simp [streamLoop, h1, h2, h3, hum, h4], by simp⟩
                · rcases ih (n + 1) with h | ⟨pre, hp, hn⟩
                  · left
                    simp [streamLoop, h1, h2, h3, hum, h4, h]
                  · right
                    exact ⟨.readLine line :: .sendChunk chunk :: pre,
                      by simp [streamLoop, h1, h2, h3, hum, h4, hp],
                      by simp [hn]⟩
        · rcases ih n with h | ⟨pre, hp, hn⟩
          · left
            simp [streamLoop, h1, h2, h]
          · right
            exact ⟨.readLine line :: pre, by simp [streamLoop, h1, h2, hp],
              by simp [hn]⟩

theorem streamTrace_cancel_structure (c : Client)
    (pe : String → Option ErrorResponse) (um : String → Option ChatStreamChunk)
    (cancelAt : Nat → Bool) (inp : StreamInput) :
    StreamEvent.cancelWins ∉ chatCompletionStreamTrace c pe um cancelAt inp ∨
    ∃ pre, chatCompletionStreamTrace c pe um cancelAt inp =
        pre ++ [.cancelWins, .closeErrs, .closeChunks] ∧
      StreamEvent.cancelWins ∉ pre := by
  unfold chatCompletionStreamTrace
  cases hm : inp.marshalErr with
  | some e => left; simp
  | none =>
    cases hr : inp.newRequestErr with
    | some e => left; simp
    | none =>
      cases hd : inp.doErr with
      | some e => left; simp
      | none =>
          by_cases hs : inp.status ≠ 200
          · left
            rw [if_pos hs]
            simp
          · rw [if_neg hs]
            rcases streamLoop_cancel_structure um cancelAt inp.readErr
                inp.bodyLines 0 with h | ⟨pre, hp, hn⟩
            · left
              simp [h]
            · right
              exact ⟨.exchange {} :: pre, by simp [hp], by simp [hn]⟩

theorem streamLoop_no_chunks_of_cancel (um : String → Option ChatStreamChunk)
    (cancelAt : Nat → Bool) (readErr : Option String)
    (hcancel : ∀ n, cancelAt n = true) :
    ∀ (lines : List String) (n : Nat),
      chunksSent (streamLoop um cancelAt readErr lines n) = [] := by
  intro lines
  induction lines with
  | nil =>
      intro n
      cases readErr <;> simp [streamLoop]
  | cons line rest ih =>
      intro n
      by_cases h1 : line = ""
      · simp [streamLoop, h1, ih n]
      · by_cases h2 : dataMarked line = true
        · by_cases h3 : trimDataMark line = "[DONE]"
          · simp [streamLoop, h1, h2, h3]
          · cases hum : um (trimDataMark line) with
            | none => simp [streamLoop, h1, h2, h3, hum, ih n]
            | some chunk => simp [streamLoop, h1, h2, h3, hum, hcancel n]
        · simp [streamLoop, h1, h2, ih n]

/-- C9: Once the caller's cancellation is observed (the `ctx.Done` case wins
the select against the frame send), no further frame is delivered and no
further body line is read: everything after the observation is just the two
deferred channel closes.  In particular, if cancellation wins every race, no
frame at all is delivered. -/
theorem chatCompletionStream_cancellation_stops_delivery (c : Client)
    (pe : String → Option ErrorResponse) (um : String → Option ChatStreamChunk)
    (cancelAt : Nat → Bool) (inp : StreamInput) :
    (∀ pre post, chatCompletionStreamTrace c pe um cancelAt inp =
        pre ++ .cancelWins :: post → post = [.closeErrs, .closeChunks]) ∧
    ((∀ n, cancelAt n = true) →
      chunksSent (chatCompletionStreamTrace c pe um cancelAt inp) = []) := by
  constructor
  · intro pre post h
    rcases streamTrace_cancel_structure c pe um cancelAt inp with
      hnot | ⟨p, hp, hnp⟩
    · exfalso
      apply hnot
      rw [h]
      exact List.mem_append_right _ (List.mem_cons_self _ _)
    · exact cons_eq_of_notMem _ p [.closeErrs, .closeChunks] pre post hnp
        (by simp) (hp.symm.trans h)
  · intro hcancel
    unfold chatCompletionStreamTrace
    cases hm : inp.marshalErr with
    | some e => rfl
    | none =>
      cases hr : inp.newRequestErr with
      | some e => rfl
      | none =>
        cases hd : inp.doErr with
        | some e => rfl
        | none =>
            by_cases hs : inp.status ≠ 200
            · rw [if_pos hs]
              rfl
            · rw [if_neg hs]
              simp [streamLoop_no_chunks_of_cancel um cancelAt inp.readErr
                hcancel inp.bodyLines 0]

/-- Witness for C9: with cancellation winning every race, the concrete
one-frame stream delivers nothing. -/
theorem chatCompletionStream_cancellation_stops_delivery_witness :
    chunksSent (chatCompletionStreamTrace cDemo peDemo umDemo alwaysCancel
        (inpOk ["data: A"])) = [] :=
  (chatCompletionStream_cancellation_stops_delivery cDemo peDemo umDemo
    alwaysCancel (inpOk ["data: A"])).2 (fun _ => rfl)

/-! ## Streaming transport client (C10) -/

theorem streamLoop_no_exchange (um : String → Option ChatStreamChunk)
    (cancelAt : Nat → Bool) (readErr : Option String) :
    ∀ (lines : List String) (n : Nat),
      exchangesIn (streamLoop um cancelAt readErr lines n) = [] := by
  intro lines
  induction lines with
  | nil =>
      intro n
      cases readErr <;> simp [streamLoop]
  | cons line rest ih =>
      intro n
      by_cases h1 : line = ""
      · simp [streamLoop, h1, ih n]
      · by_cases h2 : dataMarked line = true
        · by_cases h3 : trimDataMark line = "[DONE]"
          · simp [streamLoop, h1, h2, h3]
          · cases hum : um (trimDataMark line) with
            | none => simp [streamLoop, h1, h2, h3, hum, ih n]
            | some chunk =>
                by_cases h4 : cancelAt n = true
                · simp [streamLoop, h1, h2, h3, hum, h4]
                · simp [streamLoop, h1, h2, h3, hum, h4, ih (n + 1)]
        · simp [streamLoop, h1, h2, ih n]

/-- C10: Every streaming call that reaches the HTTP exchange performs it
with a freshly constructed default `http.Client` (zero timeout, no custom
transport), even when a custom client was installed with `WithHTTPClient`;
the configured client is used only by the non-streaming path. -/
theorem chatCompletionStream_uses_default_client (c : Client)
    (hc : HTTPClient) (pe : String → Option ErrorResponse)
    (um : String → Option ChatStreamChunk) (cancelAt : Nat → Bool)
    (inp : StreamInput)
    (hm : inp.marshalErr = none) (hr : inp.newRequestErr = none) :
    exchangesIn (chatCompletionStreamTrace (c.WithHTTPClient hc) pe um
        cancelAt inp) =
      [{ transport := none, jar := none, timeout := 0 }] ∧
    (c.WithHTTPClient hc).chatCompletionClientUsed = hc ∧
    (c.WithHTTPClient hc).httpClient = hc := by
  refine ⟨?_, rfl, rfl⟩
  unfold chatCompletionStreamTrace
  rw [hm, hr]
  cases hd : inp.doErr with
  | some e => rfl
  | none =>
      by_cases hs : inp.status ≠ 200
      · rw [if_pos hs]
        rfl
      · rw [if_neg hs]
        simp [streamLoop_no_exchange um cancelAt inp.readErr inp.bodyLines 0]

/-- Witness for C10: a custom client with a transport tag and a 10-minute
timeout is ignored by the streaming exchange. -/
theorem chatCompletionStream_uses_default_client_witness :
    exchangesIn (chatCompletionStreamTrace
        (cDemo.WithHTTPClient
          { transport := some 7, jar := none, timeout := 10 * timeMinute })
        peDemo umDemo noCancel (inpOk [])) =
      [{ transport := none, jar := none, timeout := 0 }] ∧
    (cDemo.WithHTTPClient
        { transport := some 7, jar := none, timeout := 10 * timeMinute
        }).chatCompletionClientUsed =
      { transport := some 7, jar := none, timeout := 10 * timeMinute } ∧
    (cDemo.WithHTTPClient
        { transport := some 7, jar := none, timeout := 10 * timeMinute
        }).httpClient =
      { transport := some 7, jar := none, timeout := 10 * timeMinute } :=
  chatCompletionStream_uses_default_client cDemo
    { transport := some 7, jar := none, timeout := 10 * timeMinute }
    peDemo umDemo noCancel (inpOk []) rfl rfl

end HackerseraSdk
